import Mathlib

/-!
Verification of the realtime process-monitor core of `sup_mtracker`
(`src/realtime_monitor.rs`, data model in `src/models.rs`).

Shallow embedding conventions:
* Rust `u32`/`u64` fields become `Nat`, `i32` becomes `Int`.
* `Option<T>` becomes `Option T`, `Vec<T>` becomes `List T`,
  `String` becomes `String`.
* `HashMap<String, String>` (resp. `HashMap<String, serde_json::Value>`)
  is embedded as an association list `List (String × String)`; JSON values
  are abstracted to their serialized text (no claim inspects them).
* `Instant` timestamps become `Nat` (the tick supplies "now" explicitly).
* The boxed callback `on_data_change: Option<Box<dyn Fn(...)>>` cannot be
  embedded as data; we record whether a callback is present
  (`has_on_data_change`) and a tick returns the list of snapshots the
  callback is invoked with (`callback_calls`), in invocation order.
* The two `Mutex::try_lock` attempts in `check_process` (at most one of
  which runs per tick) and the `try_lock` in `get_state` become an
  explicit boolean "the lock was acquired" input.
* The per-tick environment (`TickEnv`) carries the results of the external
  collaborator calls made during the tick: process resolution/metadata
  collection (`monitor_process_by_name`) and the active-browser-tab query
  (`get_active_browser_tab`).
-/

/-- `models.rs`: `WindowRect`. -/
structure WindowRect where
  left : Int
  top : Int
  right : Int
  bottom : Int
deriving DecidableEq

/-- `models.rs`: `WindowInfo`. -/
structure WindowInfo where
  hwnd : Nat
  class_name : String
  window_title : String
  process_id : Nat
  thread_id : Nat
  is_visible : Bool
  window_rect : Option WindowRect
deriving DecidableEq

/-- `models.rs`: `ThreadInfo`. -/
structure ThreadInfo where
  thread_id : Nat
  process_id : Nat
  creation_time : Option String
  exit_time : Option String
  kernel_time : Nat
  user_time : Nat
  priority : Int
  base_priority : Int
  context_switches : Nat
deriving DecidableEq

/-- `models.rs`: `ModuleInfo`. -/
structure ModuleInfo where
  module_name : String
  module_path : String
  base_address : Nat
  module_size : Nat
  entry_point : Nat
deriving DecidableEq

/-- `models.rs`: `MediaSessionInfo`. -/
structure MediaSessionInfo where
  session_id : String
  source_app_user_model_id : Option String
  app_user_model_id : Option String
  media_type : Option String
  playback_status : Option String
  title : Option String
  artist : Option String
  album : Option String
deriving DecidableEq

/-- `models.rs`: `HandleInfo`. -/
structure HandleInfo where
  handle_type : String
  handle_value : Nat
  object_name : Option String
  access_mask : Nat
deriving DecidableEq

/-- `models.rs`: `MemoryInfo`. -/
structure MemoryInfo where
  working_set_size : Nat
  peak_working_set_size : Nat
  pagefile_usage : Nat
  peak_pagefile_usage : Nat
  private_usage : Nat
deriving DecidableEq

/-- `models.rs`: `CpuInfo`. -/
structure CpuInfo where
  kernel_time : Nat
  user_time : Nat
  creation_time : Nat
  exit_time : Nat
deriving DecidableEq

/-- `models.rs`: `ProcessMetadata` (the per-tick snapshot). -/
structure ProcessMetadata where
  pid : Nat
  parent_pid : Nat
  name : String
  executable_path : Option String
  command_line : Option String
  working_directory : Option String
  window_title : Option String
  creation_time : Option String
  exit_time : Option String
  memory_info : Option MemoryInfo
  cpu_info : Option CpuInfo
  thread_count : Nat
  priority_class : Option String
  handle_count : Nat
  page_fault_count : Nat
  peak_working_set_size : Nat
  working_set_size : Nat
  quota_peak_paged_pool_usage : Nat
  quota_paged_pool_usage : Nat
  quota_peak_non_paged_pool_usage : Nat
  quota_non_paged_pool_usage : Nat
  pagefile_usage : Nat
  peak_pagefile_usage : Nat
  windows : List WindowInfo
  threads : List ThreadInfo
  modules : List ModuleInfo
  media_sessions : List MediaSessionInfo
  handles : List HandleInfo
  environment_variables : List (String × String)
  raw_data : List (String × String)
deriving DecidableEq

/-- `models.rs`: `MetadataOptions`. -/
structure MetadataOptions where
  basic_info : Bool
  memory_info : Bool
  window_info : Bool
  cpu_info : Bool
  thread_info : Bool
  module_info : Bool
  handle_info : Bool
  environment_vars : Bool
  media_control : Bool
  media_control_by_name : Option String
deriving DecidableEq

/-- `models.rs`: `impl Default for MetadataOptions`. -/
def MetadataOptions.default : MetadataOptions where
  basic_info := true
  memory_info := true
  window_info := true
  cpu_info := false
  thread_info := false
  module_info := false
  handle_info := false
  environment_vars := false
  media_control := true
  media_control_by_name := none

/-- `realtime_monitor.rs`: `MonitorConfig`.  The boxed callback is not data;
`has_on_data_change` records whether `on_data_change` is `Some`. -/
structure MonitorConfig where
  executable_name : String
  check_interval : Nat
  metadata_options : MetadataOptions
  has_on_data_change : Bool
deriving DecidableEq

/-- `realtime_monitor.rs`: `impl Clone for MonitorConfig` — the callback
cannot be cloned, so the clone always has `on_data_change = None`. -/
def MonitorConfig.clone (c : MonitorConfig) : MonitorConfig where
  executable_name := c.executable_name
  check_interval := c.check_interval
  metadata_options := c.metadata_options
  has_on_data_change := false

/-- `realtime_monitor.rs`: `impl Default for MonitorConfig`. -/
def MonitorConfig.default : MonitorConfig where
  executable_name := ""
  check_interval := 3
  metadata_options := MetadataOptions.default
  has_on_data_change := false

/-- `realtime_monitor.rs`: `ProcessMonitorState` (an `Instant` is a `Nat`). -/
structure ProcessMonitorState where
  last_metadata : Option ProcessMetadata
  last_active_tab : Option WindowInfo
  last_update : Option Nat
  is_active : Bool
deriving DecidableEq

/-- `realtime_monitor.rs`: `impl Default for ProcessMonitorState`. -/
def ProcessMonitorState.default : ProcessMonitorState where
  last_metadata := none
  last_active_tab := none
  last_update := none
  is_active := false

/-- `realtime_monitor.rs`: `RealtimeProcessMonitor::has_metadata_changed`.
Early-return `true` tests become the `if` branches; the `for` loop over the
zipped media-session lists becomes `List.any` over `List.zip`. -/
def has_metadata_changed (last current : ProcessMetadata) : Bool :=
  if last.window_title ≠ current.window_title
      ∨ last.working_set_size ≠ current.working_set_size
      ∨ last.handle_count ≠ current.handle_count
      ∨ last.windows.length ≠ current.windows.length then
    true
  else if last.media_sessions.length ≠ current.media_sessions.length then
    true
  else
    (last.media_sessions.zip current.media_sessions).any fun p =>
      decide (p.1.title ≠ p.2.title ∨ p.1.artist ≠ p.2.artist
        ∨ p.1.album ≠ p.2.album)

/-- The spec's description of the Diff Engine (§4.3), stated from the
spec's words for comparison with `has_metadata_changed`: changed iff the
window title, resident memory size, handle count, window-list length or
media-session-list length differs, or some index present in both
media-session lists has a differing title, artist or album. -/
def DiffSpec (last current : ProcessMetadata) : Prop :=
  last.window_title ≠ current.window_title
  ∨ last.working_set_size ≠ current.working_set_size
  ∨ last.handle_count ≠ current.handle_count
  ∨ last.windows.length ≠ current.windows.length
  ∨ last.media_sessions.length ≠ current.media_sessions.length
  ∨ ∃ i, ∃ hl : i < last.media_sessions.length,
      ∃ hc : i < current.media_sessions.length,
      ((last.media_sessions[i]).title ≠ (current.media_sessions[i]).title
        ∨ (last.media_sessions[i]).artist ≠ (current.media_sessions[i]).artist
        ∨ (last.media_sessions[i]).album ≠ (current.media_sessions[i]).album)

/-- The external inputs consumed by one call of `check_process`:
the result of `monitor_process_by_name` (`some` = `Ok(Ok(Some(_)))`,
`none` = any other outcome), whether the `state.try_lock()` attempt of this
tick succeeds, the result of `get_active_browser_tab` (`some` =
`Ok(Some(_))`), and the value `Instant::now()` would produce. -/
structure TickEnv where
  metadata_result : Option ProcessMetadata
  lock_acquired : Bool
  active_tab_result : Option WindowInfo
  now : Nat
deriving DecidableEq

/-- What one call of `check_process` produces: the state left behind, the
returned `has_changes` boolean, and the snapshots the `on_data_change`
callback was invoked with (in order). -/
structure TickResult where
  state : ProcessMonitorState
  has_changes : Bool
  callback_calls : List ProcessMetadata
deriving DecidableEq

/-- `realtime_monitor.rs`: `RealtimeProcessMonitor::check_process`.
The three mutations guarded by `is_new_process || metadata_changed` are
split into separate `let`s on the same condition; `try_lock` failure is the
early `return Ok(false)`. -/
def check_process (config : MonitorConfig) (env : TickEnv)
    (s0 : ProcessMonitorState) : TickResult :=
  match env.metadata_result with
  | some metadata =>
    if env.lock_acquired then
      let is_new_process : Bool :=
        match s0.last_metadata with
        | some last => decide (last.pid ≠ metadata.pid)
        | none => true
      let metadata_changed : Bool :=
        match s0.last_metadata with
        | some last => has_metadata_changed last metadata
        | none => true
      let fired : Bool := is_new_process || metadata_changed
      let s1 : ProcessMonitorState :=
        if fired then
          { s0 with last_metadata := some metadata
                  , is_active := true
                  , last_update := some env.now }
        else s0
      let calls : List ProcessMetadata :=
        if fired then
          if config.has_on_data_change then [metadata] else []
        else []
      if config.metadata_options.window_info then
        match env.active_tab_result with
        | some active_tab =>
          let tab_changed : Bool :=
            match s1.last_active_tab with
            | some last => decide (last.window_title ≠ active_tab.window_title)
            | none => true
          if tab_changed then
            { state := { s1 with last_active_tab := some active_tab }
            , has_changes := true
            , callback_calls := calls }
          else
            { state := s1, has_changes := fired, callback_calls := calls }
        | none =>
          { state := s1, has_changes := fired, callback_calls := calls }
      else
        { state := s1, has_changes := fired, callback_calls := calls }
    else
      { state := s0, has_changes := false, callback_calls := [] }
  | none =>
    if env.lock_acquired then
      if s0.is_active then
        { state := { s0 with is_active := false, last_update := some env.now }
        , has_changes := true
        , callback_calls := [] }
      else
        { state := s0, has_changes := false, callback_calls := [] }
    else
      { state := s0, has_changes := false, callback_calls := [] }

/-- `realtime_monitor.rs`: `RealtimeProcessMonitor::get_state` — clone the
state if `try_lock` succeeds, else return `ProcessMonitorState::default()`. -/
def get_state (lock_acquired : Bool) (s : ProcessMonitorState) :
    ProcessMonitorState :=
  if lock_acquired then s else ProcessMonitorState.default

/-- The state reached from a freshly constructed monitor
(`RealtimeProcessMonitor::new` initializes `ProcessMonitorState::default()`)
after running `check_process` for each listed tick in order. -/
def run_ticks (ticks : List (MonitorConfig × TickEnv)) : ProcessMonitorState :=
  ticks.foldl (fun s t => (check_process t.1 t.2 s).state)
    ProcessMonitorState.default

/-- The projection of a media session to the fields the Diff Engine
compares per index. -/
def sessionView (s : MediaSessionInfo) :
    Option String × Option String × Option String :=
  (s.title, s.artist, s.album)

/-- The projection of a snapshot to exactly the data the Diff Engine
inspects: window title, resident memory size, handle count, window-list
length, and the per-index (title, artist, album) of the media sessions. -/
def comparedView (m : ProcessMetadata) :
    Option String × Nat × Nat × Nat
      × List (Option String × Option String × Option String) :=
  (m.window_title, m.working_set_size, m.handle_count, m.windows.length,
    m.media_sessions.map sessionView)

/-! ### Concrete sample data (used by witnesses and counterexamples) -/

/-- A concrete media session. -/
def msA : MediaSessionInfo where
  session_id := "s1"
  source_app_user_model_id := none
  app_user_model_id := none
  media_type := none
  playback_status := none
  title := some "Song"
  artist := some "Artist"
  album := some "Album"

/-- `msA` with a different playback status (a field the Diff Engine does
not compare). -/
def msPlaying : MediaSessionInfo := { msA with playback_status := some "Playing" }

/-- A concrete window. -/
def winA : WindowInfo where
  hwnd := 1
  class_name := "Chrome_WidgetWin_1"
  window_title := "tab one"
  process_id := 100
  thread_id := 5
  is_visible := true
  window_rect := none

/-- `winA` with another title (same list length, different contents). -/
def winB : WindowInfo := { winA with window_title := "tab two" }

/-- A concrete snapshot for pid 100. -/
def metaA : ProcessMetadata where
  pid := 100
  parent_pid := 1
  name := "app.exe"
  executable_path := none
  command_line := none
  working_directory := none
  window_title := some "main window"
  creation_time := none
  exit_time := none
  memory_info := none
  cpu_info := none
  thread_count := 4
  priority_class := none
  handle_count := 10
  page_fault_count := 0
  peak_working_set_size := 0
  working_set_size := 50
  quota_peak_paged_pool_usage := 0
  quota_paged_pool_usage := 0
  quota_peak_non_paged_pool_usage := 0
  quota_non_paged_pool_usage := 0
  pagefile_usage := 0
  peak_pagefile_usage := 0
  windows := [winA]
  threads := []
  modules := []
  media_sessions := [msA]
  handles := []
  environment_variables := []
  raw_data := []

/-- `metaA` under a fresh pid: every field the Diff Engine compares is
unchanged, only the process identity differs. -/
def metaB : ProcessMetadata := { metaA with pid := 101 }

/-- `metaA` with only the playback status of its media session changed. -/
def metaC : ProcessMetadata := { metaA with media_sessions := [msPlaying] }

/-- `metaA` with the same number of windows but different window contents. -/
def metaD : ProcessMetadata := { metaA with windows := [winB] }

/-- A concrete configuration (window info requested, callback supplied). -/
def cfgA : MonitorConfig where
  executable_name := "app.exe"
  check_interval := 3
  metadata_options := MetadataOptions.default
  has_on_data_change := true

/-! ### Diff-engine lemmas -/

/-- The media-session loop of `has_metadata_changed` never fires on a list
zipped with itself. -/
theorem any_zip_self_false (l : List MediaSessionInfo) :
    (l.zip l).any (fun p =>
      decide (p.1.title ≠ p.2.title ∨ p.1.artist ≠ p.2.artist
        ∨ p.1.album ≠ p.2.album)) = false := by
  induction l with
  | nil => rfl
  | cons a t ih =>
    rw [List.zip_cons_cons, List.any_cons, ih]
    simp

/-- `has_metadata_changed` agrees with the spec's §4.3 description. -/
theorem has_metadata_changed_iff (l c : ProcessMetadata) :
    has_metadata_changed l c = true ↔ DiffSpec l c := by
  unfold has_metadata_changed DiffSpec
  split_ifs with h1 h2
  · constructor
    · intro _
      rcases h1 with h | h | h | h
      · exact Or.inl h
      · exact Or.inr (Or.inl h)
      · exact Or.inr (Or.inr (Or.inl h))
      · exact Or.inr (Or.inr (Or.inr (Or.inl h)))
    · intro _; rfl
  · constructor
    · intro _
      exact Or.inr (Or.inr (Or.inr (Or.inr (Or.inl h2))))
    · intro _; rfl
  · rw [List.any_eq_true]
    constructor
    · rintro ⟨p, hp, hpred⟩
      obtain ⟨i, hi, hgi⟩ := List.mem_iff_getElem.mp hp
      have hil : i < l.media_sessions.length := by
        simp [List.length_zip] at hi; omega
      have hic : i < c.media_sessions.length := by
        simp [List.length_zip] at hi; omega
      rw [← hgi, List.getElem_zip] at hpred
      simp only [decide_eq_true_eq] at hpred
      exact Or.inr (Or.inr (Or.inr (Or.inr (Or.inr ⟨i, hil, hic, hpred⟩))))
    · rintro (h | h | h | h | h | ⟨i, hil, hic, hcmp⟩)
      · exact absurd (Or.inl h) h1
      · exact absurd (Or.inr (Or.inl h)) h1
      · exact absurd (Or.inr (Or.inr (Or.inl h))) h1
      · exact absurd (Or.inr (Or.inr (Or.inr h))) h1
      · exact absurd h h2
      · have him : i < (l.media_sessions.zip c.media_sessions).length := by
          simp [List.length_zip]; omega
        refine ⟨(l.media_sessions.zip c.media_sessions)[i],
          List.getElem_mem him, ?_⟩
        rw [List.getElem_zip]
        simp only [decide_eq_true_eq]
        exact hcmp

/-- The Diff Engine reports no change between a snapshot and itself. -/
theorem has_metadata_changed_self (a : ProcessMetadata) :
    has_metadata_changed a a = false := by
  unfold has_metadata_changed
  rw [if_neg, if_neg]
  · exact any_zip_self_false a.media_sessions
  · exact fun h => h rfl
  · rintro (h | h | h | h) <;> exact h rfl

/-- If the Diff Engine reports a change, the two snapshots differ. -/
theorem has_metadata_changed_ne {a b : ProcessMetadata}
    (h : has_metadata_changed a b = true) : a ≠ b := by
  intro e
  subst e
  rw [has_metadata_changed_self] at h
  exact Bool.false_ne_true h

/-- `DiffSpec` is symmetric (one direction; the other follows by swapping). -/
theorem DiffSpec_symm_imp {a b : ProcessMetadata} (h : DiffSpec a b) :
    DiffSpec b a := by
  rcases h with h | h | h | h | h | ⟨i, hl, hc, hcmp⟩
  · exact Or.inl (Ne.symm h)
  · exact Or.inr (Or.inl (Ne.symm h))
  · exact Or.inr (Or.inr (Or.inl (Ne.symm h)))
  · exact Or.inr (Or.inr (Or.inr (Or.inl (Ne.symm h))))
  · exact Or.inr (Or.inr (Or.inr (Or.inr (Or.inl (Ne.symm h)))))
  · refine Or.inr (Or.inr (Or.inr (Or.inr (Or.inr ⟨i, hc, hl, ?_⟩))))
    rcases hcmp with h | h | h
    · exact Or.inl (Ne.symm h)
    · exact Or.inr (Or.inl (Ne.symm h))
    · exact Or.inr (Or.inr (Ne.symm h))

theorem sessionView_components {s s' : MediaSessionInfo}
    (h : sessionView s = sessionView s') :
    s.title = s'.title ∧ s.artist = s'.artist ∧ s.album = s'.album := by
  simpa [sessionView, Prod.mk.injEq] using h

theorem map_sessionView_getElem {l l' : List MediaSessionInfo}
    (h : l.map sessionView = l'.map sessionView) (i : Nat)
    (h1 : i < l.length) (h2 : i < l'.length) :
    sessionView l[i] = sessionView l'[i] := by
  have h3 := congrArg (fun t => t[i]?) h
  simp only [List.getElem?_map, List.getElem?_eq_getElem h1,
    List.getElem?_eq_getElem h2, Option.map_some', Option.some.injEq] at h3
  exact h3

/-- `DiffSpec` only looks at the compared view of each snapshot. -/
theorem DiffSpec_imp_of_view {a b a' b' : ProcessMetadata}
    (ha : comparedView a = comparedView a')
    (hb : comparedView b = comparedView b') :
    DiffSpec a b → DiffSpec a' b' := by
  simp only [comparedView, Prod.mk.injEq] at ha hb
  obtain ⟨hwt, hwss, hhc, hwl, hms⟩ := ha
  obtain ⟨kwt, kwss, khc, kwl, kms⟩ := hb
  have hlen : a.media_sessions.length = a'.media_sessions.length := by
    simpa using congrArg List.length hms
  have klen : b.media_sessions.length = b'.media_sessions.length := by
    simpa using congrArg List.length kms
  rintro (h | h | h | h | h | ⟨i, hl, hc, hcmp⟩)
  · refine Or.inl ?_
    rw [← hwt, ← kwt]; exact h
  · refine Or.inr (Or.inl ?_)
    rw [← hwss, ← kwss]; exact h
  · refine Or.inr (Or.inr (Or.inl ?_))
    rw [← hhc, ← khc]; exact h
  · refine Or.inr (Or.inr (Or.inr (Or.inl ?_)))
    rw [← hwl, ← kwl]; exact h
  · refine Or.inr (Or.inr (Or.inr (Or.inr (Or.inl ?_))))
    rw [← hlen, ← klen]; exact h
  · refine Or.inr (Or.inr (Or.inr (Or.inr (Or.inr
      ⟨i, hlen ▸ hl, klen ▸ hc, ?_⟩))))
    obtain ⟨t1, a1, b1⟩ :=
      sessionView_components (map_sessionView_getElem hms i hl (hlen ▸ hl))
    obtain ⟨t2, a2, b2⟩ :=
      sessionView_components (map_sessionView_getElem kms i hc (klen ▸ hc))
    rcases hcmp with h | h | h
    · refine Or.inl ?_
      rw [← t1, ← t2]; exact h
    · refine Or.inr (Or.inl ?_)
      rw [← a1, ← a2]; exact h
    · refine Or.inr (Or.inr ?_)
      rw [← b1, ← b2]; exact h

/-- C2: `has_metadata_changed` reports a change exactly when the spec's
§4.3 conditions hold: window title, resident memory size, handle count,
window-list length or media-session-list length differ, or some index
present in both media-session lists differs in title, artist or album;
otherwise (in particular for two all-empty snapshots) it reports
unchanged. -/
theorem C2_diff_engine_matches_spec (last current : ProcessMetadata) :
    has_metadata_changed last current = true ↔ DiffSpec last current :=
  has_metadata_changed_iff last current

/-- C6: the Diff Engine is symmetric in truth value and reports no change
on identical snapshots. -/
theorem C6_diff_engine_symm_refl (a b : ProcessMetadata) :
    has_metadata_changed a b = has_metadata_changed b a
      ∧ has_metadata_changed a a = false := by
  refine ⟨?_, has_metadata_changed_self a⟩
  cases h1 : has_metadata_changed a b with
  | true =>
    exact ((has_metadata_changed_iff b a).mpr
      (DiffSpec_symm_imp ((has_metadata_changed_iff a b).mp h1))).symm
  | false =>
    cases h2 : has_metadata_changed b a with
    | false => rfl
    | true =>
      have h3 := (has_metadata_changed_iff a b).mpr
        (DiffSpec_symm_imp ((has_metadata_changed_iff b a).mp h2))
      rw [h1] at h3
      exact absurd h3 Bool.false_ne_true

/-- C10: the Diff Engine's verdict depends only on the compared view
(window title, resident memory size, handle count, window-list length,
per-index title/artist/album of media sessions); snapshots pairs agreeing
on those views get the same verdict, so changes confined to
playback_status, session_id, media_type or window-list contents are
reported unchanged. -/
theorem C10_diff_depends_only_on_compared_view
    (a b a' b' : ProcessMetadata)
    (ha : comparedView a = comparedView a')
    (hb : comparedView b = comparedView b') :
    has_metadata_changed a b = has_metadata_changed a' b' := by
  cases h1 : has_metadata_changed a b with
  | true =>
    exact ((has_metadata_changed_iff a' b').mpr
      (DiffSpec_imp_of_view ha hb ((has_metadata_changed_iff a b).mp h1))).symm
  | false =>
    cases h2 : has_metadata_changed a' b' with
    | false => rfl
    | true =>
      have h3 := (has_metadata_changed_iff a b).mpr
        (DiffSpec_imp_of_view ha.symm hb.symm
          ((has_metadata_changed_iff a' b').mp h2))
      rw [h1] at h3
      exact absurd h3 Bool.false_ne_true

/-! ### Tick (guarded check) lemmas -/

/-- A `check_process` call whose config carries no callback never invokes
one, whatever the tick does. -/
theorem check_process_no_callback (config : MonitorConfig) (env : TickEnv)
    (s : ProcessMonitorState) (h : config.has_on_data_change = false) :
    (check_process config env s).callback_calls = [] := by
  rcases env with ⟨mr, lock, tabr, now⟩
  cases mr <;> cases lock <;> cases tabr <;>
      simp [check_process, h, apply_ite]

/-- C7: if the state lock cannot be acquired, the check returns `false`
("no change"), leaves every field of the state unchanged and calls no
callback, in the found and in the not-found branch alike. -/
theorem C7_lock_contention_aborts_unchanged (config : MonitorConfig)
    (env : TickEnv) (s : ProcessMonitorState)
    (h : env.lock_acquired = false) :
    check_process config env s
      = { state := s, has_changes := false, callback_calls := [] } := by
  rcases env with ⟨mr, lock, tabr, now⟩
  subst h
  cases mr <;> simp [check_process]

/-- Witness for C7 at a concrete found-branch tick and a concrete
not-found tick. -/
theorem C7_lock_contention_witness :
    (({ metadata_result := some metaA, lock_acquired := false
        , active_tab_result := some winA, now := 7 } : TickEnv).lock_acquired
        = false)
    ∧ check_process cfgA
        { metadata_result := some metaA, lock_acquired := false
          , active_tab_result := some winA, now := 7 }
        ProcessMonitorState.default
      = { state := ProcessMonitorState.default, has_changes := false
          , callback_calls := [] } :=
  ⟨rfl, C7_lock_contention_aborts_unchanged cfgA
    { metadata_result := some metaA, lock_acquired := false
      , active_tab_result := some winA, now := 7 }
    ProcessMonitorState.default rfl⟩

/-- C8: `get_state` returns the current state when the lock is free and
the default (empty) state when the lock is held, never waiting. -/
theorem C8_get_state_never_blocks (s : ProcessMonitorState) :
    get_state true s = s ∧ get_state false s = ProcessMonitorState.default :=
  ⟨rfl, rfl⟩

/-- C1 (code bug): `start()` hands the tick loop `self.config.clone()`,
and `MonitorConfig::clone` drops the callback (`on_data_change: None`), so
no tick of a started engine ever invokes the user-supplied callback — even
a tick that updates the state and reports "changed", as the concrete
conjuncts show. -/
theorem C1_started_engine_never_invokes_callback :
    (∀ (c : MonitorConfig) (env : TickEnv) (s : ProcessMonitorState),
      (check_process (MonitorConfig.clone c) env s).callback_calls = [])
    ∧ (check_process (MonitorConfig.clone cfgA)
        { metadata_result := some metaA, lock_acquired := true
          , active_tab_result := none, now := 7 }
        ProcessMonitorState.default).has_changes = true
    ∧ (check_process (MonitorConfig.clone cfgA)
        { metadata_result := some metaA, lock_acquired := true
          , active_tab_result := none, now := 7 }
        ProcessMonitorState.default).state.last_metadata = some metaA
    ∧ (check_process (MonitorConfig.clone cfgA)
        { metadata_result := some metaA, lock_acquired := true
          , active_tab_result := none, now := 7 }
        ProcessMonitorState.default).callback_calls = [] := by
  refine ⟨fun c env s => check_process_no_callback _ env s rfl, ?_, ?_, ?_⟩
    <;> decide

/-- C3: from an active state, a "not found" tick deactivates, stamps
`last_update` and reports "changed"; a second "not found" tick on the
resulting state reports "unchanged" and leaves the state exactly as it
was. -/
theorem C3_transition_to_inactive_once (config config2 : MonitorConfig)
    (env env2 : TickEnv) (s : ProcessMonitorState)
    (hact : s.is_active = true)
    (h1 : env.metadata_result = none) (h2 : env.lock_acquired = true)
    (h3 : env2.metadata_result = none) (h4 : env2.lock_acquired = true) :
    (check_process config env s).state.is_active = false
    ∧ (check_process config env s).state.last_update = some env.now
    ∧ (check_process config env s).has_changes = true
    ∧ (check_process config2 env2 (check_process config env s).state).state
        = (check_process config env s).state
    ∧ (check_process config2 env2
        (check_process config env s).state).has_changes = false := by
  rcases env with ⟨mr, lock, tabr, now⟩
  rcases env2 with ⟨mr2, lock2, tabr2, now2⟩
  subst h1 h2 h3 h4
  simp [check_process, hact]

/-- Witness for C3 at a concrete active state and two concrete
"not found" ticks. -/
theorem C3_transition_to_inactive_witness :
    (({ last_metadata := some metaA, last_active_tab := none
        , last_update := some 1, is_active := true }
          : ProcessMonitorState).is_active = true)
    ∧ ((check_process cfgA ⟨none, true, none, 5⟩
        { last_metadata := some metaA, last_active_tab := none
          , last_update := some 1, is_active := true }).state.is_active
          = false
      ∧ (check_process cfgA ⟨none, true, none, 5⟩
          { last_metadata := some metaA, last_active_tab := none
            , last_update := some 1, is_active := true }).state.last_update
          = some (5 : Nat)
      ∧ (check_process cfgA ⟨none, true, none, 5⟩
          { last_metadata := some metaA, last_active_tab := none
            , last_update := some 1, is_active := true }).has_changes = true
      ∧ (check_process cfgA ⟨none, true, none, 8⟩
          (check_process cfgA ⟨none, true, none, 5⟩
            { last_metadata := some metaA, last_active_tab := none
              , last_update := some 1, is_active := true }).state).state
          = (check_process cfgA ⟨none, true, none, 5⟩
            { last_metadata := some metaA, last_active_tab := none
              , last_update := some 1, is_active := true }).state
      ∧ (check_process cfgA ⟨none, true, none, 8⟩
          (check_process cfgA ⟨none, true, none, 5⟩
            { last_metadata := some metaA, last_active_tab := none
              , last_update := some 1, is_active := true }).state).has_changes
          = false) :=
  ⟨rfl, C3_transition_to_inactive_once cfgA cfgA ⟨none, true, none, 5⟩
    ⟨none, true, none, 8⟩
    { last_metadata := some metaA, last_active_tab := none
      , last_update := some 1, is_active := true }
    rfl rfl rfl rfl rfl⟩

set_option maxRecDepth 4000 in
/-- C4: a found tick whose resolved pid differs from the pid recorded in
`last_metadata` always reports "changed" (even when the Diff Engine finds
every compared field equal — no diff hypothesis is needed). -/
theorem C4_new_pid_reports_changed (config : MonitorConfig) (env : TickEnv)
    (s : ProcessMonitorState) (m last : ProcessMetadata)
    (hm : env.metadata_result = some m) (hl : env.lock_acquired = true)
    (hs : s.last_metadata = some last) (hp : last.pid ≠ m.pid) :
    (check_process config env s).has_changes = true := by
  rcases env with ⟨mr, lock, tabr, now⟩
  subst hm hl
  rcases s with ⟨slm, slt, slu, sact⟩
  have hs2 : slm = some last := hs
  subst hs2
  cases tabr <;>
    (simp only [check_process, if_true]
     repeat' split
     all_goals simp [hp])

/-- Witness for C4: pid 100 recorded, pid 101 resolved, all compared
fields equal (`has_metadata_changed metaA metaB = false`), yet the tick
reports "changed". -/
theorem C4_new_pid_witness :
    has_metadata_changed metaA metaB = false
    ∧ (check_process cfgA ⟨some metaB, true, none, 9⟩
        { last_metadata := some metaA, last_active_tab := none
          , last_update := some 1, is_active := true }).has_changes = true :=
  ⟨by decide, C4_new_pid_reports_changed cfgA ⟨some metaB, true, none, 9⟩
    { last_metadata := some metaA, last_active_tab := none
      , last_update := some 1, is_active := true }
    metaB metaA rfl rfl rfl (by decide)⟩

/-- C5 (counterexample): the active-tab branch mutates `last_active_tab`
(and reports "changed") without stamping `last_update`.  Concretely: same
pid, no metadata diff, window info requested, a first active tab appears —
the state mutates but `last_update` stays `none`. -/
theorem C5_counterexample_tab_mutation_without_stamp :
    (check_process cfgA
      { metadata_result := some metaA, lock_acquired := true
        , active_tab_result := some winA, now := 7 }
      { last_metadata := some metaA, last_active_tab := none
        , last_update := none, is_active := true }).state.last_active_tab
      = some winA
    ∧ (check_process cfgA
        { metadata_result := some metaA, lock_acquired := true
          , active_tab_result := some winA, now := 7 }
        { last_metadata := some metaA, last_active_tab := none
          , last_update := none, is_active := true }).has_changes = true
    ∧ (check_process cfgA
        { metadata_result := some metaA, lock_acquired := true
          , active_tab_result := some winA, now := 7 }
        { last_metadata := some metaA, last_active_tab := none
          , last_update := none, is_active := true }).state.last_update
      = none := by decide

/-- C5 (amended): a tick stamps `last_update := now` exactly when it
mutates `last_metadata` or `is_active`; ticks that mutate only
`last_active_tab` (and no-op ticks) leave `last_update` untouched. -/
theorem C5_amended_last_update_discipline (config : MonitorConfig)
    (env : TickEnv) (s : ProcessMonitorState) :
    ((check_process config env s).state.last_metadata ≠ s.last_metadata
        ∨ (check_process config env s).state.is_active ≠ s.is_active
      → (check_process config env s).state.last_update = some env.now)
    ∧ ((check_process config env s).state.last_update ≠ s.last_update
      → (check_process config env s).state.last_metadata ≠ s.last_metadata
        ∨ (check_process config env s).state.is_active ≠ s.is_active) := by
  rcases env with ⟨mr, lock, tabr, now⟩
  cases mr with
  | none =>
    cases lock with
    | false => simp [check_process]
    | true =>
      by_cases hact : s.is_active = true
      · simp [check_process, hact]
      · simp [check_process, hact]
  | some m =>
    cases lock with
    | false => simp [check_process]
    | true =>
      rcases s with ⟨slm, slt, slu, sact⟩
      cases slm with
      | none =>
        cases tabr <;>
          (simp only [check_process, if_true]
           repeat' split
           all_goals simp_all)
      | some last =>
        by_cases hfired :
            (decide (last.pid ≠ m.pid) || has_metadata_changed last m) = true
        · have hne : last ≠ m := by
            rw [Bool.or_eq_true] at hfired
            rcases hfired with h | h
            · exact fun e => (of_decide_eq_true h) (congrArg ProcessMetadata.pid e)
            · exact has_metadata_changed_ne h
          have hmm : (some m : Option ProcessMetadata) ≠ some last := by
            simp only [ne_eq, Option.some.injEq]
            exact fun e => hne e.symm
          cases tabr <;>
            (simp only [check_process, if_true]
             repeat' split
             all_goals simp_all)
        · cases tabr <;>
            (simp only [check_process, if_true]
             repeat' split
             all_goals simp_all)

/-- Witness for the amended C5: a concrete tick that installs metadata
stamps `last_update` with its `now`, and its `last_update` change is
accompanied by a `last_metadata`/`is_active` change. -/
theorem C5_amended_witness :
    (check_process cfgA ⟨some metaA, true, none, 7⟩
      ProcessMonitorState.default).state.last_update = some (7 : Nat)
    ∧ ((check_process cfgA ⟨some metaA, true, none, 7⟩
        ProcessMonitorState.default).state.last_metadata
          ≠ ProcessMonitorState.default.last_metadata
      ∨ (check_process cfgA ⟨some metaA, true, none, 7⟩
        ProcessMonitorState.default).state.is_active
          ≠ ProcessMonitorState.default.is_active) :=
  ⟨(C5_amended_last_update_discipline cfgA ⟨some metaA, true, none, 7⟩
      ProcessMonitorState.default).1 (Or.inl (by decide)),
    (C5_amended_last_update_discipline cfgA ⟨some metaA, true, none, 7⟩
      ProcessMonitorState.default).2 (by decide)⟩

/-- One guarded check preserves the invariant "active implies a recorded
snapshot". -/
theorem check_process_preserves_active_inv (config : MonitorConfig)
    (env : TickEnv) (s : ProcessMonitorState)
    (h : s.is_active = true → s.last_metadata.isSome = true) :
    (check_process config env s).state.is_active = true →
      (check_process config env s).state.last_metadata.isSome = true := by
  rcases env with ⟨mr, lock, tabr, now⟩
  cases mr with
  | none =>
    cases lock with
    | false => simpa [check_process] using h
    | true =>
      by_cases hact : s.is_active = true
      · simp [check_process, hact]
      · simp [check_process, hact]
  | some m =>
    cases lock with
    | false => simpa [check_process] using h
    | true =>
      rcases s with ⟨slm, slt, slu, sact⟩
      cases slm <;> cases tabr <;>
        (simp only [check_process, if_true]
         repeat' split
         all_goals simp_all)

/-- C9: in every state reachable from a fresh monitor by guarded checks,
`is_active = true` implies `last_metadata` is `Some`. -/
theorem C9_active_implies_metadata_present
    (ticks : List (MonitorConfig × TickEnv))
    (h : (run_ticks ticks).is_active = true) :
    (run_ticks ticks).last_metadata.isSome = true := by
  have H : ∀ (ts : List (MonitorConfig × TickEnv)) (s : ProcessMonitorState),
      (s.is_active = true → s.last_metadata.isSome = true) →
      ((ts.foldl (fun s t => (check_process t.1 t.2 s).state) s).is_active
          = true →
        (ts.foldl (fun s t =>
          (check_process t.1 t.2 s).state) s).last_metadata.isSome = true) := by
    intro ts
    induction ts with
    | nil => exact fun s hs => hs
    | cons t ts ih =>
      intro s hs
      exact ih _ (check_process_preserves_active_inv t.1 t.2 s hs)
  exact H ticks ProcessMonitorState.default
    (by intro hh; simp [ProcessMonitorState.default] at hh) h

/-- Witness for C9: after one found tick the monitor is active and a
snapshot is recorded. -/
theorem C9_active_witness :
    (run_ticks [(cfgA, ⟨some metaA, true, none, 3⟩)]).is_active = true
    ∧ (run_ticks [(cfgA, ⟨some metaA, true, none, 3⟩)]).last_metadata.isSome
        = true :=
  ⟨by decide, C9_active_implies_metadata_present
    [(cfgA, ⟨some metaA, true, none, 3⟩)] (by decide)⟩

/-- Witness for C10: a playback-status-only change (`metaC`) and a
window-contents-only change (`metaD`) leave the compared view intact, so
the Diff Engine's verdict equals the one for identical snapshots. -/
theorem C10_compared_view_witness :
    comparedView metaA = comparedView metaC
    ∧ comparedView metaA = comparedView metaD
    ∧ has_metadata_changed metaA metaA = has_metadata_changed metaC metaD :=
  ⟨rfl, rfl,
    C10_diff_depends_only_on_compared_view metaA metaA metaC metaD rfl rfl⟩
